import Mathlib

/-!
# Admission-control engine of the troika chat backend: a shallow embedding

This file embeds, in Lean, the admission-control core of the Go backend:

* the sliding-window rate limiter of `handlers/chat.go`
  (`RateLimiter`, `NewRateLimiter`, `Allow`, `GetRemainingRequests`,
  `cleanupVisitors`, `InitRateLimiters`, `RateLimitMiddleware`);
* the per-tenant quota checks and the user-token handling of the
  `IframeSendMessage` handler in `handlers/chat.go`;
* the subscription middleware `ValidateSubscription` of `middleware/auth.go`
  and the embed-message route of `setupRoutes`;
* the maintenance passes of `config/database.go`
  (`RunSubscriptionMaintenance`, `UpdateExpiredProjects`, `FixProjectLimits`,
  `ResetMonthlyTokenUsage`) and the notification-deduplication log
  (`LogNotification`, `WasNotificationRecentlySent`).

Modelling conventions.  Go `time.Time` values are modelled as integer
seconds (Nat for wall-clock instants of the rate limiter and the quota
pipeline, Int where subtraction appears); `time.Time.Truncate` on a
positive duration rounds down to a multiple of the duration, which is
`t / w * w` on Nat.  The Go map of the rate limiter is modelled as an
association list with replace-on-insert semantics.  Mongo documents are
modelled as typed records, and `UpdateMany(filter, $set ...)` as a `map`
over a list of records that rewrites every record matching the filter.
-/

namespace Troika

/-! ## Sliding-window rate limiter (`handlers/chat.go`, lines 27-143) -/

/-- A per-key counter of the rate limiter (`Visitor` in `handlers/chat.go`):
`lastSeen` and `window` are instants in seconds, `count` the number of
admitted events since `window`. -/
structure Visitor where
  lastSeen : Nat
  count : Nat
  window : Nat
deriving DecidableEq

/-- The rate limiter state (`RateLimiter` in `handlers/chat.go`): a keyed
registry of visitors plus the policy (window size `rate` in seconds and
`burst`).  The Go map is modelled as an association list. -/
structure RateLimiter where
  visitors : List (String × Visitor)
  rate : Nat
  burst : Nat
deriving DecidableEq

/-- Model of `time.Time.Truncate` for a positive duration: round `t` down to a
multiple of `w`. -/
def truncate (t w : Nat) : Nat := t / w * w

/-- Go map lookup `rl.visitors[ip]` on the association list. -/
def lookupVisitor : List (String × Visitor) → String → Option Visitor
  | [], _ => none
  | (k, v) :: rest, ip => if k = ip then some v else lookupVisitor rest ip

/-- Go map store `rl.visitors[ip] = v`: replace the binding if present,
append otherwise. -/
def setVisitor : List (String × Visitor) → String → Visitor → List (String × Visitor)
  | [], ip, v => [(ip, v)]
  | (k, w) :: rest, ip, v =>
      if k = ip then (ip, v) :: rest else (k, w) :: setVisitor rest ip v

/-- Constructor `NewRateLimiter(rate, burst)`: empty visitor map with the given policy. -/
def NewRateLimiter (rate burst : Nat) : RateLimiter :=
  { visitors := [], rate := rate, burst := burst }

/-- Method `Allow(ip)` of `handlers/chat.go` lines 59-91, with the
current instant `now` made explicit.  Returns the decision and the new
state: an unseen key is created with `count = 1`; a rolled-over window
resets to `count = 1`; below `burst` the count is incremented; otherwise
the call is denied and nothing is written. -/
def RateLimiter.allow (rl : RateLimiter) (ip : String) (now : Nat) : Bool × RateLimiter :=
  match lookupVisitor rl.visitors ip with
  | none =>
      (true, { rl with
        visitors := setVisitor rl.visitors ip
          { lastSeen := now, count := 1, window := truncate now rl.rate } })
  | some visitor =>
      let currentWindow := truncate now rl.rate
      if visitor.window < currentWindow then
        (true, { rl with
          visitors := setVisitor rl.visitors ip
            { lastSeen := now, count := 1, window := currentWindow } })
      else if visitor.count < rl.burst then
        (true, { rl with
          visitors := setVisitor rl.visitors ip
            { lastSeen := now, count := visitor.count + 1, window := visitor.window } })
      else
        (false, rl)

/-- Method `GetRemainingRequests(ip)` of `handlers/chat.go`
lines 94-115 (read-only). -/
def RateLimiter.getRemainingRequests (rl : RateLimiter) (ip : String) (now : Nat) : Nat :=
  match lookupVisitor rl.visitors ip with
  | none => rl.burst
  | some visitor =>
      if visitor.window < truncate now rl.rate then rl.burst
      else if rl.burst < visitor.count then 0
      else rl.burst - visitor.count

/-- One sweep of `cleanupVisitors` (`handlers/chat.go` lines 117-135): every
visitor whose `lastSeen` is before the cutoff is deleted. -/
def RateLimiter.cleanup (rl : RateLimiter) (cutoff : Nat) : RateLimiter :=
  { rl with visitors := rl.visitors.filter (fun kv => ¬ kv.2.lastSeen < cutoff) }

/-- A sequence of `Allow` calls for one key, returning the decisions in
order together with the final state. -/
def RateLimiter.allowMany (rl : RateLimiter) (ip : String) : List Nat → List Bool × RateLimiter
  | [] => ([], rl)
  | t :: ts =>
      let step := rl.allow ip t
      let rest := step.2.allowMany ip ts
      (step.1 :: rest.1, rest.2)

/-! ### Count invariant under arbitrary `Allow` calls and janitor sweeps
(claim C9) -/

/-- One operation on a limiter: an `Allow` call or a janitor sweep of
`cleanupVisitors` with its staleness cutoff. -/
inductive LimiterOp where
  | allowOp (ip : String) (now : Nat)
  | cleanupOp (cutoff : Nat)

/-- Run a finite sequence of operations against a limiter. -/
def runOps (rl : RateLimiter) : List LimiterOp → RateLimiter
  | [] => rl
  | LimiterOp.allowOp ip now :: ops => runOps (rl.allow ip now).2 ops
  | LimiterOp.cleanupOp cutoff :: ops => runOps (rl.cleanup cutoff) ops

/-- Every visitor stored in the map has a count between 1 and the burst. -/
def countInvariant (rl : RateLimiter) : Prop :=
  ∀ kv ∈ rl.visitors, 1 ≤ kv.2.count ∧ kv.2.count ≤ rl.burst

/-! ### Limiter registry and class fallback
(`InitRateLimiters` / `RateLimitMiddleware`, `handlers/chat.go` 137-195) -/

/-- The three process-wide limiters created by `InitRateLimiters`. -/
structure LimiterRegistry where
  chat : RateLimiter
  auth : RateLimiter
  general : RateLimiter
deriving DecidableEq

/-- Registry built by `InitRateLimiters`: chat 100/min, auth 50/min, general 200/min
(window sizes in seconds). -/
def InitRateLimiters : LimiterRegistry :=
  { chat := NewRateLimiter 60 100
    auth := NewRateLimiter 60 50
    general := NewRateLimiter 60 200 }

/-- The traffic classes the `switch` in `RateLimitMiddleware` recognizes. -/
def configuredClasses : List String := ["chat", "auth", "general"]

/-- The `switch limiterType` of `RateLimitMiddleware`: an unrecognized class
hits the `default` arm, which uses the general limiter. -/
def selectLimiter (reg : LimiterRegistry) (limiterType : String) : RateLimiter :=
  if limiterType = "chat" then reg.chat
  else if limiterType = "auth" then reg.auth
  else if limiterType = "general" then reg.general
  else reg.general

/-- The allow/deny decision `RateLimitMiddleware(limiterType)` takes for a
client, together with the updated registry state of the limiter it used. -/
def rateLimitMiddlewareDecision (reg : LimiterRegistry) (limiterType ip : String)
    (now : Nat) : Bool :=
  ((selectLimiter reg limiterType).allow ip now).1

/-! ## Tenant data model

`models.Project` as used by the admission path.  The Gemini usage counters
and limits are Go `int`, modelled as `Int`; timestamps are seconds, with
`expiryDate = 0` modelling `time.Time.IsZero()`.  The subscription fields
(`status`, `startDate`, `expiryDate`, `totalTokensUsed`,
`monthlyTokenLimit`) are read by `middleware/auth.go` and
`config/database.go` but their struct declaration is not among the source
files; they are typed here after spec section 3 (SubscriptionState /
QuotaLedger). -/

structure Project where
  isActive : Bool
  geminiEnabled : Bool
  geminiAPIKey : String
  welcomeMessage : String
  geminiDailyLimit : Int
  geminiMonthlyLimit : Int
  geminiUsageToday : Int
  geminiUsageMonth : Int
  lastDailyReset : Int
  lastMonthlyReset : Int
  status : String
  startDate : Int
  expiryDate : Int
  totalTokensUsed : Int
  monthlyTokenLimit : Int
deriving DecidableEq

/-- Model of `models.ChatUser`, restricted to the fields the message handler reads. -/
structure ChatUser where
  name : String
  email : String
deriving DecidableEq

/-- The zero value `var user models.ChatUser` before any decode. -/
def emptyChatUser : ChatUser := { name := "", email := "" }

/-- The JSON body bound by `IframeSendMessage`. -/
structure ChatRequest where
  message : String
  sessionID : String
  userToken : String
deriving DecidableEq

/-! ## Token and object-id validation (`handlers/chat.go` 856-869) -/

/-- A hex digit as accepted by `hex.DecodeString` inside
`primitive.ObjectIDFromHex`. -/
def isHexDigit (c : Char) : Bool :=
  c.isDigit || ((Char.ofNat 97 ≤ c) && (c ≤ Char.ofNat 102)) ||
    ((Char.ofNat 65 ≤ c) && (c ≤ Char.ofNat 70))

/-- Validity of a Mongo object id: `primitive.ObjectIDFromHex` succeeds exactly on 24 hex characters. -/
def isValidObjectIdHex (s : String) : Bool :=
  decide (s.length = 24) && s.toList.all isHexDigit

/-- Function `validateUserToken` of `handlers/chat.go` lines 856-869: reject tokens
shorter than 24 characters, take the first 24 characters as the user id,
reject unless they parse as a hex object id. -/
def validateUserToken (token : String) : Option String :=
  if token.length < 24 then none
  else if (token.toList.take 24).all isHexDigit then
    some (token.toList.take 24).asString
  else none

/-- Association-list lookup standing for a Mongo `FindOne` by id. -/
def lookupById {α : Type} : List (String × α) → String → Option α
  | [], _ => none
  | (k, v) :: rest, i => if k = i then some v else lookupById rest i

/-- The user-identification step of `IframeSendMessage` (lines 485-496):
an empty token is skipped, a token failing `validateUserToken` is only
logged, a valid token loads the user (decode failure leaves the zero
value).  In every non-success path the handler proceeds with the zero
`ChatUser`. -/
def resolveUser (users : List (String × ChatUser)) (token : String) : ChatUser :=
  if token = "" then emptyChatUser
  else
    match validateUserToken token with
    | some userID =>
        match lookupById users userID with
        | some u => u
        | none => emptyChatUser
    | none => emptyChatUser

/-! ## Input sanitization (`handlers/chat.go` 841-847)

`html.EscapeString(strings.TrimSpace(input))` capped at 1000; Go caps
bytes and trims Unicode white space, modelled here on characters. -/

def escapeChar (c : Char) : String :=
  if c = '&' then "&amp;"
  else if c = Char.ofNat 39 then "&#39;"
  else if c = '<' then "&lt;"
  else if c = '>' then "&gt;"
  else if c = Char.ofNat 34 then "&#34;"
  else String.singleton c

def htmlEscapeString (s : String) : String :=
  String.join (s.toList.map escapeChar)

/-- The ASCII white space characters `strings.TrimSpace` strips (space,
tab, newline, vertical tab, form feed, carriage return). -/
def isSpaceChar (c : Char) : Bool :=
  c = Char.ofNat 32 || c = Char.ofNat 9 || c = Char.ofNat 10 ||
    c = Char.ofNat 11 || c = Char.ofNat 12 || c = Char.ofNat 13

def trimSpace (s : String) : String :=
  ((s.toList.dropWhile isSpaceChar).reverse.dropWhile isSpaceChar).reverse.asString

def sanitizeInput (input : String) : String :=
  let cleaned := htmlEscapeString (trimSpace input)
  if 1000 < cleaned.length then (cleaned.toList.take 1000).asString else cleaned

/-! ## Quota check of `IframeSendMessage` (`handlers/chat.go` 430-483) -/

/-- Function `getNextDailyReset` (`handlers/chat.go` 892-895):
`time.Now().AddDate(0,0,1).Truncate(24h)` — one day ahead, truncated to a
whole day. -/
def getNextDailyReset (now : Nat) : Nat := truncate (now + 86400) 86400

/-- Start of the next calendar day after `now` (next midnight) — the
spec-side meaning of the reported reset instant, to be compared with
`getNextDailyReset`. -/
def startOfNextCalendarDay (now : Nat) : Nat := (now / 86400 + 1) * 86400

/-- Outcome of the daily/monthly limit checks of `IframeSendMessage`. -/
inductive QuotaDecision where
  | denyDaily (dailyUsage dailyLimit : Int) (resetsAt : Nat)
  | denyMonthly (monthlyUsage monthlyLimit : Int) (resetsAt : Nat)
  | allowQ (p : Project)
deriving DecidableEq

/-- Lines 430-483 of `handlers/chat.go`, in source order: repair a zero
daily limit to 100, deny when `GeminiUsageToday >= GeminiDailyLimit`
reporting `getNextDailyReset`, repair a zero monthly limit to 3000, deny
when `GeminiUsageMonth >= GeminiMonthlyLimit` reporting the next monthly
reset (`getNextMonthlyReset` builds a calendar date; its value is the
explicit argument `nextMonthlyResetAt` here), otherwise proceed with the
(possibly repaired) project. -/
def quotaCheck (p : Project) (now nextMonthlyResetAt : Nat) : QuotaDecision :=
  let p1 := if p.geminiDailyLimit = 0 then { p with geminiDailyLimit := 100 } else p
  if p1.geminiDailyLimit ≤ p1.geminiUsageToday then
    QuotaDecision.denyDaily p1.geminiUsageToday p1.geminiDailyLimit (getNextDailyReset now)
  else
    let p2 := if p1.geminiMonthlyLimit = 0 then { p1 with geminiMonthlyLimit := 3000 } else p1
    if p2.geminiMonthlyLimit ≤ p2.geminiUsageMonth then
      QuotaDecision.denyMonthly p2.geminiUsageMonth p2.geminiMonthlyLimit nextMonthlyResetAt
    else
      QuotaDecision.allowQ p2

/-- The normalization both on-the-fly repairs amount to: zero limits
replaced by the safe defaults 100 / 3000, everything else untouched. -/
def repairLimits (p : Project) : Project :=
  { p with
    geminiDailyLimit := if p.geminiDailyLimit = 0 then 100 else p.geminiDailyLimit
    geminiMonthlyLimit := if p.geminiMonthlyLimit = 0 then 3000 else p.geminiMonthlyLimit }

/-! ## Subscription middleware (`middleware/auth.go` 103-188) -/

/-- Outcome of `ValidateSubscription`. -/
inductive SubscriptionDecision where
  | blockedExpired (expiryDate : Int)
  | blockedStatus (message status : String)
  | blockedTokens (tokensUsed tokenLimit : Int)
  | subAllowed (p : Project)
deriving DecidableEq

/-- The human-readable message the status check picks. -/
def statusMessage (status : String) : String :=
  if status = "expired" then "Your subscription has expired. Please renew to continue."
  else if status = "suspended" then "Your account has been suspended. Please contact support."
  else "Your account is not active. Please contact support."

/-- Middleware `ValidateSubscription` of `middleware/auth.go`: (1) a non-zero expiry
date in the past blocks, before and regardless of the status field;
(2) a non-empty status other than "active" blocks; (3) a positive monthly
token limit already consumed blocks; otherwise the request proceeds. -/
def validateSubscription (p : Project) (now : Int) : SubscriptionDecision :=
  if p.expiryDate ≠ 0 ∧ p.expiryDate < now then
    SubscriptionDecision.blockedExpired p.expiryDate
  else if p.status ≠ "" ∧ p.status ≠ "active" then
    SubscriptionDecision.blockedStatus (statusMessage p.status) p.status
  else if 0 < p.monthlyTokenLimit ∧ p.monthlyTokenLimit ≤ p.totalTokensUsed then
    SubscriptionDecision.blockedTokens p.totalTokensUsed p.monthlyTokenLimit
  else
    SubscriptionDecision.subAllowed p

/-! ## The embed message route and the `IframeSendMessage` handler
(`setupRoutes` lines 156-173; `handlers/chat.go` lines 330-587) -/

/-- The middlewares Gin can mount on an embed route. -/
inductive EmbedMiddleware where
  | rateLimitMw (cls : String)
  | validateSubscriptionMw
deriving DecidableEq

/-- The middleware chain `setupRoutes` mounts in front of
`IframeSendMessage` on `POST /embed/:projectId/message`: the group-level
general rate limit and the route-level chat rate limit. -/
def embedMessageMiddlewares : List EmbedMiddleware :=
  [EmbedMiddleware.rateLimitMw "general", EmbedMiddleware.rateLimitMw "chat"]

/-- Outcome of the AI-generation call
(`generateGeminiResponseWithTracking`), which is external to the
admission core. -/
inductive GenResult where
  | genOk (response : String) (inputTokens outputTokens : Nat)
  | genErr (message : String)
deriving DecidableEq

/-- The generation phase of the handler (lines 498-538). -/
structure GenPhase where
  response : String
  inputTokens : Nat
  outputTokens : Nat
  success : Bool
  errorMsg : String
deriving DecidableEq

/-- Lines 498-538 of `handlers/chat.go`: missing API key fails with a
support message; a first message answers with the welcome message (default
greeting when unset); otherwise the generator runs, a failure producing a
fallback personalized with the user's name. -/
def generationPhase (p : Project) (user : ChatUser) (msg : String) (first : Bool)
    (gen : String → ChatUser → GenResult) : GenPhase :=
  if p.geminiAPIKey = "" then
    { response := "AI configuration is incomplete. Please contact support."
      inputTokens := 0, outputTokens := 0, success := false
      errorMsg := "No API key configured" }
  else if first then
    { response := if p.welcomeMessage = "" then "Hello! How can I help you today?"
        else p.welcomeMessage
      inputTokens := 0, outputTokens := 0, success := true, errorMsg := "" }
  else
    match gen msg user with
    | GenResult.genOk resp iTok oTok =>
        { response := resp, inputTokens := iTok, outputTokens := oTok
          success := true, errorMsg := "" }
    | GenResult.genErr m =>
        { response :=
            if user.name ≠ "" then
              "Hello " ++ user.name ++ "! I\x27m having trouble answering just now. Please try again later."
            else "I\x27m having trouble answering just now. Please try again later."
          inputTokens := 0, outputTokens := 0, success := false, errorMsg := m }

/-- The `usage_info` object of the success response (lines 559-574). -/
structure UsageInfo where
  dailyUsage : Int
  dailyLimit : Int
  dailyRemaining : Int
  monthlyUsage : Int
  monthlyLimit : Int
  tokensUsed : Nat
deriving DecidableEq

/-- The JSON body returned with HTTP 200 (lines 559-586). -/
structure OkResponse where
  response : String
  sessionID : String
  status : String
  errorDetails : Option String
  userName : Option String
  usageInfo : UsageInfo
deriving DecidableEq

/-- The possible HTTP outcomes of `IframeSendMessage`. -/
inductive IframeResult where
  | badRequest (status : String)
  | rateLimitedResp (remaining : Nat)
  | notFoundResp (status : String)
  | forbidden (status : String)
  | tooManyRequests (status : String) (usage limit : Int) (resetsAt : Nat)
  | okResp (r : OkResponse)
deriving DecidableEq

/-- Handler `IframeSendMessage` of `handlers/chat.go` lines 330-587, in source
order: object-id parse, body bind (given), sanitize + empty check, chat
rate limit, project load, active and Gemini-enabled flags, daily/monthly
quota, then user resolution, generation, and the response body.  There is
no subscription or expiry check anywhere on this path.  `first` stands for
`isFirstMessage(objID, sessionID)` and `gen` for the external AI call;
asynchronous writes (`updateGeminiUsage`, `saveMessage`) do not affect the
response and are omitted. -/
def iframeSendMessage (projects : List (String × Project))
    (users : List (String × ChatUser)) (rl : RateLimiter) (projectID ip : String)
    (req : ChatRequest) (now nextMonthlyResetAt : Nat) (first : Bool)
    (gen : String → ChatUser → GenResult) : IframeResult × RateLimiter :=
  if ¬ isValidObjectIdHex projectID then (IframeResult.badRequest "invalid_project_id", rl)
  else
    let msg := sanitizeInput req.message
    if msg = "" then (IframeResult.badRequest "empty_message", rl)
    else
      let step := rl.allow ip now
      if ¬ step.1 then
        (IframeResult.rateLimitedResp (step.2.getRemainingRequests ip now), step.2)
      else
        match lookupById projects projectID with
        | none => (IframeResult.notFoundResp "project_not_found", step.2)
        | some project =>
          if ¬ project.isActive then (IframeResult.forbidden "project_inactive", step.2)
          else if ¬ project.geminiEnabled then
            (IframeResult.forbidden "gemini_disabled", step.2)
          else
            match quotaCheck project now nextMonthlyResetAt with
            | QuotaDecision.denyDaily u l r =>
                (IframeResult.tooManyRequests "daily_limit_exceeded" u l r, step.2)
            | QuotaDecision.denyMonthly u l r =>
                (IframeResult.tooManyRequests "monthly_limit_exceeded" u l r, step.2)
            | QuotaDecision.allowQ proj =>
                let user := resolveUser users req.userToken
                let phase := generationPhase proj user msg first gen
                let inc : Int := if phase.success ∧ ¬ first then 1 else 0
                let dailyUsageAfter := proj.geminiUsageToday + inc
                let monthlyUsageAfter := proj.geminiUsageMonth + inc
                (IframeResult.okResp
                  { response := phase.response
                    sessionID := req.sessionID
                    status := if phase.success then "success" else "error"
                    errorDetails := if phase.success then none else some phase.errorMsg
                    userName := if user.name ≠ "" then some user.name else none
                    usageInfo :=
                      { dailyUsage := dailyUsageAfter
                        dailyLimit := proj.geminiDailyLimit
                        dailyRemaining := max 0 (proj.geminiDailyLimit - dailyUsageAfter)
                        monthlyUsage := monthlyUsageAfter
                        monthlyLimit := proj.geminiMonthlyLimit
                        tokensUsed := phase.inputTokens + phase.outputTokens } },
                  step.2)

/-- A tenant whose subscription expired at instant 50 while its `status`
field still says active, with quota to spare. -/
def expiredActiveProject : Project :=
  { isActive := true, geminiEnabled := true, geminiAPIKey := "k"
    welcomeMessage := "", geminiDailyLimit := 100, geminiMonthlyLimit := 3000
    geminiUsageToday := 0, geminiUsageMonth := 0, lastDailyReset := 0
    lastMonthlyReset := 0, status := "active", startDate := 0, expiryDate := 50
    totalTokensUsed := 0, monthlyTokenLimit := 100000 }

/-! ## Maintenance passes (`config/database.go` 342-411, 560-589, 631-676)

`UpdateMany(filter, update)` over the projects collection is modelled as a
`map` over a list of tenant records rewriting those that match the filter.
The calendar cutoffs Go computes with `AddDate` (`now.AddDate(0,0,-1)`,
`now.AddDate(0,-1,0)`, `now.AddDate(0,1,0)`) are the explicit arguments
`dayAgo`, `monthAgo` and `nowPlusMonth`.  The configurable env defaults of
`FixProjectLimits` are their hard-coded fallbacks 100 / 3000 / 100000. -/

/-- Sweep `UpdateExpiredProjects`: mark past-expiry, not-yet-expired tenants. -/
def updateExpiredProjects (ps : List Project) (now : Int) : List Project :=
  ps.map (fun p =>
    if p.expiryDate < now ∧ p.status ≠ "expired" then { p with status := "expired" }
    else p)

/-- The `$or` filter of `FixProjectLimits` (`config/database.go` 353-367):
zero limits, stale daily or monthly reset timestamps, or an empty status.
The `$exists: false` clauses are vacuous over typed records. -/
def needsLimitsFix (p : Project) (dayAgo monthAgo : Int) : Bool :=
  decide (p.geminiDailyLimit = 0) || decide (p.geminiMonthlyLimit = 0) ||
    decide (p.lastDailyReset < dayAgo) || decide (p.lastMonthlyReset < monthAgo) ||
    decide (p.status = "")

/-- The `$set` update of `FixProjectLimits` (`config/database.go` 374-392)
applied to every matching tenant: default limits, reset timestamps moved to
now, status forced active, expiry pushed a month out.  No usage counter is
written. -/
def fixProjectLimits (ps : List Project) (now dayAgo monthAgo nowPlusMonth : Int) :
    List Project :=
  ps.map (fun p =>
    if needsLimitsFix p dayAgo monthAgo then
      { p with
        geminiDailyLimit := 100, geminiMonthlyLimit := 3000
        lastDailyReset := now, lastMonthlyReset := now
        status := "active", startDate := now, expiryDate := nowPlusMonth
        monthlyTokenLimit := 100000 }
    else p)

/-- Task `RunSubscriptionMaintenance` (`config/database.go` 632-649):
`UpdateExpiredProjects` then `FixProjectLimits`. -/
def runSubscriptionMaintenance (ps : List Project)
    (now dayAgo monthAgo nowPlusMonth : Int) : List Project :=
  fixProjectLimits (updateExpiredProjects ps now) now dayAgo monthAgo nowPlusMonth

/-- Pass `ResetMonthlyTokenUsage` (`config/database.go` 652-676): an
`UpdateMany` with the empty filter — every tenant's `total_tokens_used` is
zeroed, whatever its `last_monthly_reset`. -/
def resetMonthlyTokenUsage (ps : List Project) : List Project :=
  ps.map (fun p => { p with totalTokensUsed := 0 })

/-- A tenant whose `lastDailyReset` is far more than one day old and who
has five calls recorded today and seven this month. -/
def staleResetProject : Project :=
  { isActive := true, geminiEnabled := true, geminiAPIKey := "k"
    welcomeMessage := "", geminiDailyLimit := 50, geminiMonthlyLimit := 500
    geminiUsageToday := 5, geminiUsageMonth := 7, lastDailyReset := 0
    lastMonthlyReset := 950000, status := "active", startDate := 0
    expiryDate := 2000000, totalTokensUsed := 10, monthlyTokenLimit := 100000 }

/-- A tenant whose `lastMonthlyReset` is current (not stale) with token
usage on the books. -/
def freshResetProject : Project :=
  { isActive := true, geminiEnabled := true, geminiAPIKey := "k"
    welcomeMessage := "", geminiDailyLimit := 50, geminiMonthlyLimit := 500
    geminiUsageToday := 1, geminiUsageMonth := 2, lastDailyReset := 1000000
    lastMonthlyReset := 1000000, status := "active", startDate := 0
    expiryDate := 2000000, totalTokensUsed := 77, monthlyTokenLimit := 100000 }

/-! ## Notification dedup log (`config/database.go` 859-906) -/

/-- A document of the `notifications` collection as written by
`LogNotification`. -/
structure NotificationRecord where
  projectID : String
  notificationType : String
  sentAt : Int
deriving DecidableEq

/-- Recorder `LogNotification`: insert a record stamped with the current instant. -/
def logNotification (db : List NotificationRecord) (pid ntype : String)
    (now : Int) : List NotificationRecord :=
  { projectID := pid, notificationType := ntype, sentAt := now } :: db

/-- The `CountDocuments` filter of `WasNotificationRecentlySent`: same
tenant, same type, `sent_at >= now - hours` (a closed lower bound). -/
def notifMatches (r : NotificationRecord) (pid ntype : String) (cutoff : Int) : Bool :=
  decide (r.projectID = pid ∧ r.notificationType = ntype ∧ cutoff ≤ r.sentAt)

/-- Query `WasNotificationRecentlySent` (`config/database.go` 882-906): true iff
some record of this tenant and type is stamped at or after
`now - hours` hours. -/
def wasNotificationRecentlySent (db : List NotificationRecord) (pid ntype : String)
    (hours now : Int) : Bool :=
  db.any (fun r => notifMatches r pid ntype (now - hours * 3600))

/-! ### Lemmas about `Allow` sequences within one window -/

theorem map_range'_decide_lt_of_le (b : Nat) :
    ∀ (n a : Nat), a + n ≤ b →
      (List.range' a n).map (fun j => decide (j < b)) = List.replicate n true := by
  intro n
  induction n with
  | zero => intro a _; rfl
  | succ m ih =>
      intro a h
      have ha : a < b := by omega
      rw [List.range'_succ, List.map_cons, ih (a + 1) (by omega), List.replicate_succ]
      simp [ha]

theorem map_range'_decide_lt_false (b : Nat) :
    ∀ (n a : Nat), b ≤ a →
      (List.range' a n).map (fun j => decide (j < b)) = List.replicate n false := by
  intro n
  induction n with
  | zero => intro a _; rfl
  | succ m ih =>
      intro a h
      have ha : ¬ a < b := by omega
      rw [List.range'_succ, List.map_cons, ih (a + 1) (by omega), List.replicate_succ]
      simp [ha]

theorem range'_one_map_decide_lt (N : Nat) (hN : 1 ≤ N) :
    (List.range' 1 N).map (fun j => decide (j < N)) =
      List.replicate (N - 1) true ++ [false] := by
  obtain ⟨m, rfl⟩ : ∃ m, N = m + 1 := ⟨N - 1, by omega⟩
  have hle : 1 + m ≤ m + 1 := by omega
  have hnot : ¬ (1 + m < m + 1) := by omega
  rw [List.range'_concat, List.map_append,
    map_range'_decide_lt_of_le (m + 1) m 1 hle]
  simp [hnot]

/-- Running `Allow` repeatedly against a single stored visitor whose window
equals the truncation of every call instant: the k-th decision (0-based)
is `count + k < burst`, i.e. the count fills up to `burst` and every later
call is denied. -/
theorem allowMany_singleton_same_window (W N : Nat) (ip : String) (w0 : Nat) :
    ∀ (ts : List Nat) (ls c : Nat), (∀ t ∈ ts, truncate t W = w0) →
      (RateLimiter.allowMany ⟨[(ip, ⟨ls, c, w0⟩)], W, N⟩ ip ts).1 =
        (List.range' c ts.length).map (fun j => decide (j < N)) := by
  intro ts
  induction ts with
  | nil => intro ls c _; rfl
  | cons t rest ih =>
      intro ls c hsame
      have ht : truncate t W = w0 := hsame t (List.mem_cons_self t rest)
      have hrest : ∀ u ∈ rest, truncate u W = w0 := fun u hu =>
        hsame u (List.mem_cons_of_mem t hu)
      by_cases hc : c < N
      · have hstep : RateLimiter.allow ⟨[(ip, ⟨ls, c, w0⟩)], W, N⟩ ip t =
            (true, ⟨[(ip, ⟨t, c + 1, w0⟩)], W, N⟩) := by
          simp [RateLimiter.allow, lookupVisitor, setVisitor, ht, hc]
        simp only [RateLimiter.allowMany, hstep]
        rw [ih t (c + 1) hrest]
        simp [hc, List.range'_succ]
      · have hstep : RateLimiter.allow ⟨[(ip, ⟨ls, c, w0⟩)], W, N⟩ ip t =
            (false, ⟨[(ip, ⟨ls, c, w0⟩)], W, N⟩) := by
          simp [RateLimiter.allow, lookupVisitor, ht, hc]
        simp only [RateLimiter.allowMany, hstep]
        rw [ih ls c hrest]
        have h1 := map_range'_decide_lt_false N rest.length c (Nat.le_of_not_lt hc)
        have h2 := map_range'_decide_lt_false N rest.length (c + 1) (by omega)
        simp [hc, List.range'_succ, h1, h2]

/-- Claim C1: for a limiter constructed with window size `W` and burst
`N ≥ 1`, a run of `N + 1` `Allow` calls for one key whose instants all
truncate to the same window admits the first `N` calls and denies the
`(N+1)`-th. -/
theorem allow_admits_burst_then_denies (W N : Nat) (hW : 0 < W) (hN : 1 ≤ N)
    (ip : String) (t0 : Nat) (ts : List Nat) (hlen : ts.length = N)
    (hsame : ∀ t ∈ ts, truncate t W = truncate t0 W) :
    ((NewRateLimiter W N).allowMany ip (t0 :: ts)).1 =
      List.replicate N true ++ [false] := by
  have hfirst : (NewRateLimiter W N).allow ip t0 =
      (true, ⟨[(ip, ⟨t0, 1, truncate t0 W⟩)], W, N⟩) := rfl
  simp only [RateLimiter.allowMany, hfirst]
  rw [allowMany_singleton_same_window W N ip (truncate t0 W) ts t0 1 hsame, hlen,
    range'_one_map_decide_lt N hN]
  obtain ⟨m, rfl⟩ : ∃ m, N = m + 1 := ⟨N - 1, by omega⟩
  simp [List.replicate_succ]

/-- Witness for C1 at Scenario A: window 60 s, burst 3, four calls for
key "ip1" inside the first minute; the first three are admitted, the
fourth denied. -/
theorem allow_admits_burst_then_denies_witness :
    ((NewRateLimiter 60 3).allowMany "ip1" [0, 1, 2, 59]).1 =
      List.replicate 3 true ++ [false] :=
  allow_admits_burst_then_denies 60 3 (by decide) (by decide) "ip1" 0 [1, 2, 59]
    (by decide) (by decide)

/-! ### The denying branch writes nothing (claim C6) -/

/-- Claim C6: whenever `Allow` returns `false` (the stored count for the key
has reached the burst within the current window), the rate limiter state —
in particular the key's count, window start and last-seen time — is exactly
what it was before the call. -/
theorem allow_deny_leaves_state_unchanged (rl : RateLimiter) (ip : String) (now : Nat)
    (h : (rl.allow ip now).1 = false) : (rl.allow ip now).2 = rl := by
  unfold RateLimiter.allow at h ⊢
  cases hl : lookupVisitor rl.visitors ip with
  | none => rw [hl] at h; simp at h
  | some v =>
      rw [hl] at h
      by_cases hw : v.window < truncate now rl.rate
      · simp [hw] at h
      · by_cases hc : v.count < rl.burst
        · simp [hw, hc] at h
        · simp [hw, hc]

/-- Witness for C6: a visitor at its burst of 1 inside the current window is
denied and the state is returned untouched. -/
theorem allow_deny_leaves_state_unchanged_witness :
    ((⟨[("k", ⟨0, 1, 0⟩)], 60, 1⟩ : RateLimiter).allow "k" 5).2 =
      (⟨[("k", ⟨0, 1, 0⟩)], 60, 1⟩ : RateLimiter) :=
  allow_deny_leaves_state_unchanged ⟨[("k", ⟨0, 1, 0⟩)], 60, 1⟩ "k" 5 (by decide)

theorem mem_setVisitor {vs : List (String × Visitor)} {ip : String} {v : Visitor}
    {kv : String × Visitor} (h : kv ∈ setVisitor vs ip v) :
    kv = (ip, v) ∨ kv ∈ vs := by
  induction vs with
  | nil =>
      simp only [setVisitor, List.mem_singleton] at h
      exact Or.inl h
  | cons hd tl ih =>
      simp only [setVisitor] at h
      by_cases hk : hd.1 = ip
      · rw [if_pos hk] at h
        rcases List.mem_cons.1 h with h' | h'
        · exact Or.inl h'
        · exact Or.inr (List.mem_cons_of_mem hd h')
      · rw [if_neg hk] at h
        rcases List.mem_cons.1 h with h' | h'
        · exact Or.inr (h' ▸ List.mem_cons_self hd tl)
        · rcases ih h' with h'' | h''
          · exact Or.inl h''
          · exact Or.inr (List.mem_cons_of_mem hd h'')

theorem lookupVisitor_mem {vs : List (String × Visitor)} {ip : String} {v : Visitor}
    (h : lookupVisitor vs ip = some v) : (ip, v) ∈ vs := by
  induction vs with
  | nil => simp [lookupVisitor] at h
  | cons hd tl ih =>
      simp only [lookupVisitor] at h
      by_cases hk : hd.1 = ip
      · rw [if_pos hk] at h
        have : hd = (ip, v) := by
          cases hd
          simp_all
        exact this ▸ List.mem_cons_self hd tl
      · rw [if_neg hk] at h
        exact List.mem_cons_of_mem hd (ih h)

theorem allow_preserves_policy (rl : RateLimiter) (ip : String) (now : Nat) :
    (rl.allow ip now).2.rate = rl.rate ∧ (rl.allow ip now).2.burst = rl.burst := by
  unfold RateLimiter.allow
  cases lookupVisitor rl.visitors ip with
  | none => exact ⟨rfl, rfl⟩
  | some v =>
      by_cases hw : v.window < truncate now rl.rate
      · simp [hw]
      · by_cases hc : v.count < rl.burst
        · simp [hw, hc]
        · simp [hw, hc]

theorem allow_preserves_countInvariant (rl : RateLimiter) (ip : String) (now : Nat)
    (hburst : 1 ≤ rl.burst) (hinv : countInvariant rl) :
    countInvariant (rl.allow ip now).2 := by
  intro kv hkv
  rw [(allow_preserves_policy rl ip now).2]
  unfold RateLimiter.allow at hkv
  cases hl : lookupVisitor rl.visitors ip with
  | none =>
      rw [hl] at hkv
      rcases mem_setVisitor hkv with h | h
      · subst h; exact ⟨le_refl 1, hburst⟩
      · exact hinv kv h
  | some v =>
      rw [hl] at hkv
      by_cases hw : v.window < truncate now rl.rate
      · simp only [hw, if_true, ite_true] at hkv
        rcases mem_setVisitor hkv with h | h
        · subst h; exact ⟨le_refl 1, hburst⟩
        · exact hinv kv h
      · by_cases hc : v.count < rl.burst
        · simp only [hw, hc, if_true, ite_true, if_false, ite_false] at hkv
          rcases mem_setVisitor hkv with h | h
          · subst h
            exact ⟨Nat.succ_le_succ (Nat.zero_le _), hc⟩
          · exact hinv kv h
        · simp only [hw, hc, if_false, ite_false] at hkv
          exact hinv kv hkv

theorem cleanup_preserves_countInvariant (rl : RateLimiter) (cutoff : Nat)
    (hinv : countInvariant rl) : countInvariant (rl.cleanup cutoff) := by
  intro kv hkv
  exact hinv kv (List.mem_of_mem_filter hkv)

theorem runOps_burst (ops : List LimiterOp) :
    ∀ rl : RateLimiter, (runOps rl ops).burst = rl.burst := by
  induction ops with
  | nil => intro rl; rfl
  | cons op rest ih =>
      intro rl
      cases op with
      | allowOp ip now =>
          simp only [runOps]
          rw [ih ((rl.allow ip now).2), (allow_preserves_policy rl ip now).2]
      | cleanupOp cutoff =>
          simp only [runOps]
          rw [ih (rl.cleanup cutoff)]
          rfl

theorem runOps_countInvariant (ops : List LimiterOp) :
    ∀ rl : RateLimiter, 1 ≤ rl.burst → countInvariant rl →
      countInvariant (runOps rl ops) := by
  induction ops with
  | nil => intro rl _ hinv; exact hinv
  | cons op rest ih =>
      intro rl hburst hinv
      cases op with
      | allowOp ip now =>
          refine ih _ ?_ (allow_preserves_countInvariant rl ip now hburst hinv)
          rw [(allow_preserves_policy rl ip now).2]; exact hburst
      | cleanupOp cutoff =>
          exact ih _ hburst (cleanup_preserves_countInvariant rl cutoff hinv)

/-- Claim C9: for a limiter constructed with burst `B ≥ 1`, after any finite
sequence of `Allow` calls and cleanup sweeps every visitor present in the
map has a count `c` with `1 ≤ c ≤ B`: the count never exceeds the burst and
no stored visitor has count zero. -/
theorem runOps_visitor_count_bounds (W B : Nat) (hB : 1 ≤ B) (ops : List LimiterOp)
    (ip : String) (v : Visitor)
    (hmem : (ip, v) ∈ (runOps (NewRateLimiter W B) ops).visitors) :
    1 ≤ v.count ∧ v.count ≤ B := by
  have hinv0 : countInvariant (NewRateLimiter W B) := by
    intro kv hkv
    simp [NewRateLimiter] at hkv
  have hinv := runOps_countInvariant ops (NewRateLimiter W B) hB hinv0 (ip, v) hmem
  rwa [runOps_burst ops (NewRateLimiter W B)] at hinv

/-- Witness for C9: two `Allow` calls and a sweep on a burst-2 limiter leave
one visitor, whose count is between 1 and 2. -/
theorem runOps_visitor_count_bounds_witness :
    (("a", (⟨6, 2, 0⟩ : Visitor)) ∈
        (runOps (NewRateLimiter 60 2)
          [LimiterOp.allowOp "a" 5, LimiterOp.allowOp "a" 6,
           LimiterOp.cleanupOp 0]).visitors) ∧
      1 ≤ (2 : Nat) ∧ (2 : Nat) ≤ 2 :=
  ⟨by decide,
    runOps_visitor_count_bounds 60 2 (by decide)
      [LimiterOp.allowOp "a" 5, LimiterOp.allowOp "a" 6, LimiterOp.cleanupOp 0]
      "a" ⟨6, 2, 0⟩ (by decide)⟩

/-- Claim C7: the per-class limiter lookup never fails — for every class
string outside the configured classes (chat, auth, general) the middleware
decision is the general limiter's decision, and among the limiters built by
`InitRateLimiters` the general one has the largest burst (the most
permissive policy per one-minute window). -/
theorem unknown_class_uses_most_permissive (s : String) (hs : s ∉ configuredClasses)
    (ip : String) (now : Nat) :
    rateLimitMiddlewareDecision InitRateLimiters s ip now =
        (InitRateLimiters.general.allow ip now).1 ∧
      selectLimiter InitRateLimiters s = InitRateLimiters.general ∧
      InitRateLimiters.chat.burst ≤ InitRateLimiters.general.burst ∧
      InitRateLimiters.auth.burst ≤ InitRateLimiters.general.burst ∧
      InitRateLimiters.chat.rate = InitRateLimiters.general.rate ∧
      InitRateLimiters.auth.rate = InitRateLimiters.general.rate := by
  simp only [configuredClasses, List.mem_cons, List.not_mem_nil, or_false, not_or] at hs
  obtain ⟨h1, h2, h3⟩ := hs
  refine ⟨?_, ?_, ?_, ?_, ?_, ?_⟩
  · simp [rateLimitMiddlewareDecision, selectLimiter, h1, h2, h3]
  · simp [selectLimiter, h1, h2, h3]
  · decide
  · decide
  · decide
  · decide

/-- Witness for C7 at the unrecognized class "embed". -/
theorem unknown_class_uses_most_permissive_witness :
    rateLimitMiddlewareDecision InitRateLimiters "embed" "1.2.3.4" 0 =
        (InitRateLimiters.general.allow "1.2.3.4" 0).1 ∧
      selectLimiter InitRateLimiters "embed" = InitRateLimiters.general ∧
      InitRateLimiters.chat.burst ≤ InitRateLimiters.general.burst ∧
      InitRateLimiters.auth.burst ≤ InitRateLimiters.general.burst ∧
      InitRateLimiters.chat.rate = InitRateLimiters.general.rate ∧
      InitRateLimiters.auth.rate = InitRateLimiters.general.rate :=
  unknown_class_uses_most_permissive "embed" (by decide) "1.2.3.4" 0

/-! ### Daily-limit denial reports the start of the next calendar day
(claim C3) -/

theorem getNextDailyReset_eq_startOfNextCalendarDay (now : Nat) :
    getNextDailyReset now = startOfNextCalendarDay now := by
  unfold getNextDailyReset startOfNextCalendarDay truncate
  rw [Nat.add_div_right now (by norm_num)]

/-- Claim C3: when the daily-call counter has reached a non-zero daily
limit, the quota check denies with reason `daily_limit_exceeded` carrying
that usage and limit, and the reported `resets_at` equals the start of the
next calendar day (next midnight). -/
theorem daily_limit_denied_with_next_midnight (p : Project) (now nm : Nat)
    (hnz : p.geminiDailyLimit ≠ 0)
    (hfull : p.geminiDailyLimit ≤ p.geminiUsageToday) :
    quotaCheck p now nm =
      QuotaDecision.denyDaily p.geminiUsageToday p.geminiDailyLimit
        (startOfNextCalendarDay now) := by
  simp only [quotaCheck, if_neg hnz, getNextDailyReset_eq_startOfNextCalendarDay]
  rw [if_pos hfull]

/-- Witness for C3 at Scenario B: daily limit 5, five calls today, at
instant 1000 the reset is reported for the next midnight 86400. -/
theorem daily_limit_denied_with_next_midnight_witness :
    quotaCheck
        { isActive := true, geminiEnabled := true, geminiAPIKey := "k"
          welcomeMessage := "", geminiDailyLimit := 5, geminiMonthlyLimit := 3000
          geminiUsageToday := 5, geminiUsageMonth := 0, lastDailyReset := 0
          lastMonthlyReset := 0, status := "active", startDate := 0, expiryDate := 0
          totalTokensUsed := 0, monthlyTokenLimit := 0 } 1000 2678400 =
      QuotaDecision.denyDaily 5 5 86400 :=
  daily_limit_denied_with_next_midnight _ 1000 2678400 (by decide) (by decide)

/-! ### Zero limits are repaired, never read as zero calls allowed
(claim C4) -/

theorem repairLimits_daily_ne_zero (p : Project) :
    (repairLimits p).geminiDailyLimit ≠ 0 := by
  unfold repairLimits
  by_cases hd : p.geminiDailyLimit = 0 <;> simp [hd]

theorem repairLimits_monthly_ne_zero (p : Project) :
    (repairLimits p).geminiMonthlyLimit ≠ 0 := by
  unfold repairLimits
  by_cases hm : p.geminiMonthlyLimit = 0 <;> simp [hm]

theorem quotaCheck_repair_eq (p : Project) (now nm : Nat) :
    quotaCheck p now nm = quotaCheck (repairLimits p) now nm := by
  by_cases hd : p.geminiDailyLimit = 0 <;> by_cases hm : p.geminiMonthlyLimit = 0 <;>
    simp [quotaCheck, repairLimits, hd, hm]

theorem quotaCheck_allowQ_of_under (p : Project) (now nm : Nat)
    (hd : p.geminiDailyLimit ≠ 0) (hm : p.geminiMonthlyLimit ≠ 0)
    (h1 : p.geminiUsageToday < p.geminiDailyLimit)
    (h2 : p.geminiUsageMonth < p.geminiMonthlyLimit) :
    quotaCheck p now nm = QuotaDecision.allowQ p := by
  simp only [quotaCheck, if_neg hd, if_neg hm]
  rw [if_neg (not_le.mpr h1), if_neg (not_le.mpr h2)]

/-- Claim C4: a zero daily or monthly limit is repaired to the safe
defaults 100 / 3000 and the check behaves exactly as with the repaired
limits; in particular, with usage below the repaired limits the request
passes the quota stage, so a zero limit never reads as "zero calls
allowed" and never by itself denies. -/
theorem zero_limit_repaired_never_blocks (p : Project) (now nm : Nat)
    (h : p.geminiDailyLimit = 0 ∨ p.geminiMonthlyLimit = 0) :
    quotaCheck p now nm = quotaCheck (repairLimits p) now nm ∧
      (p.geminiDailyLimit = 0 → (repairLimits p).geminiDailyLimit = 100) ∧
      (p.geminiMonthlyLimit = 0 → (repairLimits p).geminiMonthlyLimit = 3000) ∧
      (p.geminiUsageToday < (repairLimits p).geminiDailyLimit →
        p.geminiUsageMonth < (repairLimits p).geminiMonthlyLimit →
          quotaCheck p now nm = QuotaDecision.allowQ (repairLimits p)) := by
  refine ⟨quotaCheck_repair_eq p now nm, ?_, ?_, ?_⟩
  · intro hd; simp [repairLimits, hd]
  · intro hm; simp [repairLimits, hm]
  · intro h1 h2
    rw [quotaCheck_repair_eq p now nm]
    exact quotaCheck_allowQ_of_under (repairLimits p) now nm
      (repairLimits_daily_ne_zero p) (repairLimits_monthly_ne_zero p) h1 h2

/-- Witness for C4: a project configured with both limits zero and no usage
passes the quota stage with the defaults 100 / 3000 in place. -/
theorem zero_limit_repaired_never_blocks_witness :
    (quotaCheck
        { isActive := true, geminiEnabled := true, geminiAPIKey := "k"
          welcomeMessage := "", geminiDailyLimit := 0, geminiMonthlyLimit := 0
          geminiUsageToday := 0, geminiUsageMonth := 0, lastDailyReset := 0
          lastMonthlyReset := 0, status := "active", startDate := 0, expiryDate := 0
          totalTokensUsed := 0, monthlyTokenLimit := 0 } 0 0 =
      quotaCheck
        (repairLimits
          { isActive := true, geminiEnabled := true, geminiAPIKey := "k"
            welcomeMessage := "", geminiDailyLimit := 0, geminiMonthlyLimit := 0
            geminiUsageToday := 0, geminiUsageMonth := 0, lastDailyReset := 0
            lastMonthlyReset := 0, status := "active", startDate := 0, expiryDate := 0
            totalTokensUsed := 0, monthlyTokenLimit := 0 }) 0 0) ∧
      (0 : Int) < 100 :=
  ⟨(zero_limit_repaired_never_blocks _ 0 0 (Or.inl rfl)).1, by decide⟩

/-! ### The message route never checks the expiry date (claim C2) -/

/-- Claim C2 fails in the code as wired: `ValidateSubscription` does deny an
active-status project with a past expiry date with the subscription-expired
reason (first conjunct), but `setupRoutes` never mounts it on
`POST /embed/:projectId/message` (second conjunct), and `IframeSendMessage`
itself performs no expiry check, so at instant 1000 the message to the
expired-but-active tenant is fully admitted and answered (third
conjunct). -/
theorem expiry_unchecked_on_message_route :
    validateSubscription expiredActiveProject 1000 =
        SubscriptionDecision.blockedExpired 50 ∧
      EmbedMiddleware.validateSubscriptionMw ∉ embedMessageMiddlewares ∧
      (iframeSendMessage [("aaaaaaaaaaaaaaaaaaaaaaaa", expiredActiveProject)] []
          (NewRateLimiter 60 100) "aaaaaaaaaaaaaaaaaaaaaaaa" "203.0.113.9"
          { message := "hello", sessionID := "s1", userToken := "" }
          1000 2678400 true (fun _ _ => GenResult.genOk "hi" 1 2)).1 =
        IframeResult.okResp
          { response := "Hello! How can I help you today?"
            sessionID := "s1"
            status := "success"
            errorDetails := none
            userName := none
            usageInfo :=
              { dailyUsage := 0, dailyLimit := 100, dailyRemaining := 100
                monthlyUsage := 0, monthlyLimit := 3000, tokensUsed := 0 } } := by
  refine ⟨by decide, by decide, by decide⟩

/-! ### An invalid user token never denies (claim C10) -/

/-- Claim C10: a non-empty user token that is invalid (shorter than 24
characters, or whose first 24 characters are not hex) leaves the message
handler's decision and response exactly as with no token at all, and no
user identity is attached (the resolved user is the zero value). -/
theorem invalid_token_same_as_no_token (projects : List (String × Project))
    (users : List (String × ChatUser)) (rl : RateLimiter)
    (projectID ip msg sid token : String) (now nm : Nat) (first : Bool)
    (gen : String → ChatUser → GenResult) (hne : token ≠ "")
    (hbad : token.length < 24 ∨ (token.toList.take 24).all isHexDigit = false) :
    iframeSendMessage projects users rl projectID ip
        { message := msg, sessionID := sid, userToken := token } now nm first gen =
      iframeSendMessage projects users rl projectID ip
        { message := msg, sessionID := sid, userToken := "" } now nm first gen ∧
      resolveUser users token = emptyChatUser := by
  have hval : validateUserToken token = none := by
    unfold validateUserToken
    by_cases hlen : token.length < 24
    · rw [if_pos hlen]
    · rcases hbad with h | h
      · exact absurd h hlen
      · have hcnot : ¬ ((token.toList.take 24).all isHexDigit = true) := by
          intro hcontra
          rw [hcontra] at h
          exact absurd h (by simp)
        rw [if_neg hlen, if_neg hcnot]
  have hres : resolveUser users token = emptyChatUser := by
    unfold resolveUser
    rw [if_neg hne, hval]
  have h0 : resolveUser users "" = emptyChatUser := rfl
  refine ⟨?_, hres⟩
  simp only [iframeSendMessage, hres, h0]

/-- Witness for C10 with the three-character token "zzz". -/
theorem invalid_token_same_as_no_token_witness :
    (iframeSendMessage [] [] (NewRateLimiter 60 100) "aaaaaaaaaaaaaaaaaaaaaaaa"
          "203.0.113.9" { message := "hi", sessionID := "s", userToken := "zzz" }
          0 0 true (fun _ _ => GenResult.genErr "x") =
        iframeSendMessage [] [] (NewRateLimiter 60 100) "aaaaaaaaaaaaaaaaaaaaaaaa"
          "203.0.113.9" { message := "hi", sessionID := "s", userToken := "" }
          0 0 true (fun _ _ => GenResult.genErr "x")) ∧
      resolveUser [] "zzz" = emptyChatUser :=
  invalid_token_same_as_no_token [] [] (NewRateLimiter 60 100)
    "aaaaaaaaaaaaaaaaaaaaaaaa" "203.0.113.9" "hi" "s" "zzz" 0 0 true
    (fun _ _ => GenResult.genErr "x") (by decide) (Or.inl (by decide))

/-- Claim C5 fails in the code: at instant 1000000 (day-ago cutoff 913600,
month-ago cutoff 913600 - 2591900, month-ahead 3678400) the maintenance run
matches the stale tenant (its `lastDailyReset` 0 is older than one day)
yet leaves `geminiUsageToday = 5` and `geminiUsageMonth = 7` — no usage
counter is zeroed; and `ResetMonthlyTokenUsage` zeroes the token counter
of a tenant whose `lastMonthlyReset` is current. -/
theorem maintenance_never_zeroes_call_counters :
    staleResetProject.lastDailyReset < 913600 ∧
      needsLimitsFix staleResetProject 913600 (-1678300) = true ∧
      ((runSubscriptionMaintenance [staleResetProject] 1000000 913600 (-1678300)
          3678400).map Project.geminiUsageToday = [5]) ∧
      ((runSubscriptionMaintenance [staleResetProject] 1000000 913600 (-1678300)
          3678400).map Project.geminiUsageMonth = [7]) ∧
      freshResetProject.lastMonthlyReset = 1000000 ∧
      ((resetMonthlyTokenUsage [freshResetProject]).map Project.totalTokensUsed
        = [0]) := by
  refine ⟨by decide, by decide, by decide, by decide, by decide, by decide⟩

/-- Counterexample to C8 as stated: record at instant 0, cool-down 1 hour,
query at instant 3600 — the cool-down has elapsed (`t' - t ≥ H` hours) and
no newer record exists, yet the query returns true, because the stored
`$gte` cutoff keeps the boundary instant. -/
theorem dedup_boundary_counterexample :
    (3600 : Int) - 0 ≥ 1 * 3600 ∧
      wasNotificationRecentlySent (logNotification [] "p1" "usage_warning" 0)
        "p1" "usage_warning" 1 3600 = true := by
  refine ⟨by decide, by decide⟩

/-- Claim C8 amended: after recording type `T` for tenant `P` at `t` (with
no newer record for that tenant and type), a `WasRecentlySent` query at
`tq` returns true whenever `tq - t ≤ H` hours — the boundary instant
included — and returns false once `tq - t > H` hours. -/
theorem dedup_recent_iff_within_closed_cooldown (db : List NotificationRecord)
    (pid ntype : String) (t tq hours : Int)
    (hnonew : ∀ r ∈ db, r.projectID = pid → r.notificationType = ntype →
      r.sentAt ≤ t) :
    (tq - t ≤ hours * 3600 →
      wasNotificationRecentlySent (logNotification db pid ntype t) pid ntype
        hours tq = true) ∧
    (hours * 3600 < tq - t →
      wasNotificationRecentlySent (logNotification db pid ntype t) pid ntype
        hours tq = false) := by
  constructor
  · intro hle
    unfold wasNotificationRecentlySent logNotification notifMatches
    simp only [List.any_cons, Bool.or_eq_true]
    refine Or.inl ?_
    rw [decide_eq_true_eq]
    exact ⟨by trivial, by trivial, by omega⟩
  · intro hgt
    unfold wasNotificationRecentlySent logNotification
    rw [List.any_eq_false]
    intro r hr
    rcases List.mem_cons.1 hr with h | h
    · subst h
      unfold notifMatches
      intro hcon
      have hp := of_decide_eq_true hcon
      have hle2 : tq - hours * 3600 ≤ t := hp.2.2
      omega
    · unfold notifMatches
      intro hcon
      have hp := of_decide_eq_true hcon
      have h3 := hnonew r h hp.1 hp.2.1
      have h4 : tq - hours * 3600 ≤ r.sentAt := hp.2.2
      omega

/-- Witness for the amended C8 with cool-down 12 h: a query 30 minutes
after the record is positive, a query long after it is negative. -/
theorem dedup_recent_iff_within_closed_cooldown_witness :
    wasNotificationRecentlySent (logNotification [] "p1" "usage_warning" 0)
        "p1" "usage_warning" 12 1800 = true ∧
      wasNotificationRecentlySent (logNotification [] "p1" "usage_warning" 0)
        "p1" "usage_warning" 12 999999 = false :=
  ⟨(dedup_recent_iff_within_closed_cooldown [] "p1" "usage_warning" 0 1800 12
      (by simp)).1 (by decide),
    (dedup_recent_iff_within_closed_cooldown [] "p1" "usage_warning" 0 999999 12
      (by simp)).2 (by decide)⟩

end Troika
